import Mathlib

/-!
Shallow embedding of the metadata validator of the ThingsAI-microstock
repository (`validateMetadata` in the validator service, together with the
`ImageMetadata`, `ValidationIssue` and `ValidationResult` types), and proofs
about it.

JavaScript string primitives used by the source (`String.prototype.length`,
`toLowerCase`, `trim`, `includes`, `split(/\s+/)`, `Math.round`,
`Math.min/max`, `Set` size, `Array.filter/join`) are modelled on `List Char`
/ `String` / `ℚ` below, following the ECMAScript semantics the source relies
on (ASCII data in all relevant inputs).
-/

/-- JavaScript `\s` (whitespace class), restricted to the code points that can
occur in the repository's data: space, tab, LF, VT, FF, CR, NBSP. -/
def jsIsWs (c : Char) : Bool :=
  c == ' ' || c == '\t' || c == '\n' || c == '\x0d' || c == '\x0b' ||
  c == '\x0c' || c == '\xa0'

/-- JavaScript `String.prototype.trim`: remove leading and trailing
whitespace. -/
def jsTrim (s : List Char) : List Char :=
  ((s.dropWhile jsIsWs).reverse.dropWhile jsIsWs).reverse

/-- Worker for `jsSplitWs`: scans left to right; `prevWs` records whether the
previous character was whitespace (so a maximal whitespace run produces one
single split point), `cur` is the current segment reversed, `acc` the
finished segments reversed. -/
def jsSplitWsGo : Bool → List Char → List Char → List (List Char) →
    List (List Char)
  | _, [], cur, acc => (cur.reverse :: acc).reverse
  | prevWs, c :: cs, cur, acc =>
    if jsIsWs c then
      if prevWs then jsSplitWsGo true cs cur acc
      else jsSplitWsGo true cs [] (cur.reverse :: acc)
    else jsSplitWsGo false cs (c :: cur) acc

/-- JavaScript `str.split(/\s+/)`: the segments between maximal whitespace
runs, keeping the empty segments produced at the two ends; `""` yields
`[""]`. -/
def jsSplitWs (s : List Char) : List (List Char) :=
  jsSplitWsGo false s [] []

/-- Whether `pat` is a prefix of `text` (character lists). -/
def leadsWith : List Char → List Char → Bool
  | [], _ => true
  | _ :: _, [] => false
  | p :: ps, t :: ts => p == t && leadsWith ps ts

/-- JavaScript `text.includes(pat)`: `pat` occurs as a contiguous substring
of `text`. -/
def hasSub (pat : List Char) : List Char → Bool
  | [] => pat.isEmpty
  | t :: ts => leadsWith pat (t :: ts) || hasSub pat ts

/-- JavaScript `Math.round` on the exact rational value: round half towards
positive infinity, `⌊q + 1/2⌋`. -/
def jsRound (q : ℚ) : ℤ := ⌊q + 1 / 2⌋

/-- Model of `KeywordAnalysis` from `types.ts`. -/
structure KeywordAnalysis where
  broad : List String
  medium : List String
  niche : List String
  trending : List String
deriving DecidableEq, Repr

/-- Model of the `contentType` union of `ImageMetadata` from `types.ts`. -/
inductive ContentType
  | Photography
  | Illustration
  | Render3D
  | Vector
deriving DecidableEq, Repr

/-- Model of `ImageMetadata` from `types.ts`. -/
structure ImageMetadata where
  title : String
  description : String
  keywords : List String
  category : String := ""
  contentType : ContentType := ContentType.Photography
  isAI : Bool
  author : String
  keywordAnalysis : Option KeywordAnalysis := none
deriving DecidableEq, Repr

/-- Model of the severity union of `ValidationIssue` from `types.ts`. -/
inductive IssueType
  | error
  | warning
  | info
deriving DecidableEq, Repr

/-- Model of `ValidationIssue` from `types.ts` (the validator always supplies `field`). -/
structure ValidationIssue where
  type : IssueType
  message : String
  field : String
deriving DecidableEq, Repr

/-- Model of `ValidationResult` from `types.ts`. -/
structure ValidationResult where
  score : ℤ
  issues : List ValidationIssue
  recommendations : List String
deriving DecidableEq, Repr

/-- The `BANNED_KEYWORDS` list of the validator service, verbatim. -/
def BANNED_KEYWORDS : List String := [
  "iphone", "ipad", "apple", "macbook", "ios", "airpods",
  "android", "google", "pixel", "samsung", "galaxy", "windows", "microsoft",
  "facebook", "instagram", "twitter", "tiktok", "whatsapp", "youtube",
  "linkedin",
  "adobe", "photoshop", "illustrator", "zoom", "skype",
  "bmw", "mercedes", "audi", "tesla", "ferrari", "porsche", "lamborghini",
  "toyota", "honda", "ford", "jeep",
  "nike", "adidas", "puma", "reebok", "gucci", "prada", "louis vuitton",
  "chanel", "zara", "h&m",
  "disney", "marvel", "dc comics", "star wars", "lego", "barbie",
  "hot wheels", "nerf", "mickey mouse",
  "coca-cola", "pepsi", "coke", "mcdonalds", "starbucks", "kfc",
  "burger king",
  "canon", "nikon", "sony", "fujifilm", "leica", "gopro"]

/-- Message of the title-too-long error (`titleLen` interpolated). -/
def tooLongMsg (titleLen : Nat) : String :=
  "Title is too long (" ++ toString titleLen ++
    "/70 chars). It will be truncated on Adobe Stock."

/-- The title-too-short warning. -/
def tooShortIssue : ValidationIssue :=
  ⟨IssueType.warning,
   "Title is too short. Use descriptive phrases for better SEO.", "title"⟩

/-- The title low-word-count warning. -/
def lowWordsIssue : ValidationIssue :=
  ⟨IssueType.warning, "Title word count is low (< 5 words).", "title"⟩

/-- The sparse-description warning. -/
def sparseDescIssue : ValidationIssue :=
  ⟨IssueType.warning,
   "Description is very sparse. Aim for 2-3 complete sentences.",
   "description"⟩

/-- Message of the too-few-keywords error (`keywordCount` interpolated). -/
def kwFewMsg (keywordCount : Nat) : String :=
  "Found only " ++ toString keywordCount ++
    " keywords. Minimum 30 required for optimal visibility."

/-- Message of the too-many-keywords error (`keywordCount` interpolated). -/
def kwManyMsg (keywordCount : Nat) : String :=
  "Found " ++ toString keywordCount ++
    " keywords. Max 50 allowed on most platforms."

/-- Message of the duplicate-keywords warning (`diff` interpolated). -/
def dupMsg (diff : Nat) : String :=
  "Found " ++ toString diff ++ " duplicate keywords."

/-- Message of the degenerate-keywords info issue. -/
def shortKwMsg (count : Nat) (ex : String) : String :=
  toString count ++ " keywords are very short/generic (e.g. \"" ++
    ex ++ "\")."

/-- Message of the trademark/brand compliance error (`foundBanned` joined
with `", "`). -/
def bannedMsg (found : List String) : String :=
  "Potential Trademark/Brand Violation: " ++ String.intercalate ", " found ++
    ". Commercial stock must be free of brands."

/-- The AI-disclosure warning. -/
def aiIssue : ValidationIssue :=
  ⟨IssueType.warning,
   "isAI flag is false. Most platforms now require marking AI content explicitly.",
   "isAI"⟩

/-- The author-placeholder info issue. -/
def authorIssue : ValidationIssue :=
  ⟨IssueType.info, "Author field does not contain dynamic placeholder.",
   "author"⟩

/-- The literal placeholder token looked up in `author`
(`"\x7b\x7bauthor\x7d\x7d"`). -/
def placeholderToken : List Char :=
  ['{', '{', 'a', 'u', 't', 'h', 'o', 'r', '}', '}']

/-- Rule 1 issues: title length (`> 70` error, else `< 20` warning). Uses the
raw (untrimmed) `metadata.title.length`. -/
def titleLenIssues (m : ImageMetadata) : List ValidationIssue :=
  if m.title.length > 70 then
    [⟨IssueType.error, tooLongMsg m.title.length, "title"⟩]
  else if m.title.length < 20 then [tooShortIssue]
  else []

/-- Rule 1 penalty: 15 for too long, else 5 for too short. -/
def titleLenPenalty (m : ImageMetadata) : ℚ :=
  if m.title.length > 70 then 15
  else if m.title.length < 20 then 5
  else 0

/-- The source's `metadata.title.split(/\s+/).length`. -/
def titleWordCount (m : ImageMetadata) : Nat :=
  (jsSplitWs m.title.data).length

/-- Rule 1b issues: title word count `< 5`. -/
def titleWordsIssues (m : ImageMetadata) : List ValidationIssue :=
  if titleWordCount m < 5 then [lowWordsIssue] else []

/-- Rule 1b penalty. -/
def titleWordsPenalty (m : ImageMetadata) : ℚ :=
  if titleWordCount m < 5 then 5 else 0

/-- The source's `metadata.description.split(/\s+/).length`. -/
def descWordCount (m : ImageMetadata) : Nat :=
  (jsSplitWs m.description.data).length

/-- Rule 2 issues: description word count `< 10`. -/
def descIssues (m : ImageMetadata) : List ValidationIssue :=
  if descWordCount m < 10 then [sparseDescIssue] else []

/-- Rule 2 penalty. -/
def descPenalty (m : ImageMetadata) : ℚ :=
  if descWordCount m < 10 then 10 else 0

/-- Rule 3 issues: keyword count below 30 / above 50. -/
def kwCountIssues (m : ImageMetadata) : List ValidationIssue :=
  if m.keywords.length < 30 then
    [⟨IssueType.error, kwFewMsg m.keywords.length, "keywords"⟩]
  else if m.keywords.length > 50 then
    [⟨IssueType.error, kwManyMsg m.keywords.length, "keywords"⟩]
  else []

/-- Rule 3 penalty: `missing × 1.5` / `extra × 2`. -/
def kwCountPenalty (m : ImageMetadata) : ℚ :=
  if m.keywords.length < 30 then
    ((30 - m.keywords.length : ℕ) : ℚ) * (3 / 2)
  else if m.keywords.length > 50 then
    ((m.keywords.length - 50 : ℕ) : ℚ) * 2
  else 0

/-- Rule 3 recommendations. -/
def kwCountRecs (m : ImageMetadata) : List String :=
  if m.keywords.length < 30 then
    ["Add " ++ toString (30 - m.keywords.length) ++
      " more keywords to reach the minimum of 30."]
  else if m.keywords.length > 50 then
    ["Remove " ++ toString (m.keywords.length - 50) ++
      " least relevant keywords."]
  else []

/-- The source's `k.toLowerCase().trim()` applied to one keyword. -/
def normKw (k : String) : List Char :=
  jsTrim (k.data.map Char.toLower)

/-- The source's `new Set(metadata.keywords.map(k => k.toLowerCase().trim())).size`. -/
def uniqueKwCount (m : ImageMetadata) : Nat :=
  ((m.keywords.map normKw).dedup).length

/-- Rule 3b issues: duplicate keywords (case-insensitive, trimmed). -/
def dupIssues (m : ImageMetadata) : List ValidationIssue :=
  if uniqueKwCount m ≠ m.keywords.length then
    [⟨IssueType.warning, dupMsg (m.keywords.length - uniqueKwCount m),
      "keywords"⟩]
  else []

/-- Rule 3b penalty: `diff × 3`. -/
def dupPenalty (m : ImageMetadata) : ℚ :=
  if uniqueKwCount m ≠ m.keywords.length then
    ((m.keywords.length - uniqueKwCount m : ℕ) : ℚ) * 3
  else 0

/-- Rule 3b recommendation. -/
def dupRecs (m : ImageMetadata) : List String :=
  if uniqueKwCount m ≠ m.keywords.length then
    ["Remove duplicate keywords to save space for unique terms."]
  else []

/-- The source's `metadata.keywords.filter(k => k.length < 3)` (raw length, no trim). -/
def tooShortKeywords (m : ImageMetadata) : List String :=
  m.keywords.filter (fun k => k.length < 3)

/-- Rule 3c issues: more than 3 very short keywords → info, citing the count
and the first such keyword; no penalty. -/
def shortKwIssues (m : ImageMetadata) : List ValidationIssue :=
  if (tooShortKeywords m).length > 3 then
    [⟨IssueType.info,
      shortKwMsg (tooShortKeywords m).length
        ((tooShortKeywords m).headD ""), "keywords"⟩]
  else []

/-- Rule 3c recommendation. -/
def shortKwRecs (m : ImageMetadata) : List String :=
  if (tooShortKeywords m).length > 3 then
    ["Replace short 2-letter keywords with more specific terms."]
  else []

/-- The source's `metadata.title.toLowerCase()` as characters. -/
def lowerTitle (m : ImageMetadata) : List Char :=
  m.title.data.map Char.toLower

/-- The source's `metadata.description.toLowerCase()` as characters. -/
def lowerDesc (m : ImageMetadata) : List Char :=
  m.description.data.map Char.toLower

/-- The source's `BANNED_KEYWORDS.filter(banned => lowerKeywords.some(k =>
k.includes(banned)) || lowerTitle.includes(banned) ||
lowerDesc.includes(banned))`. -/
def foundBanned (m : ImageMetadata) : List String :=
  BANNED_KEYWORDS.filter (fun banned =>
    m.keywords.any (fun k => hasSub banned.data (k.data.map Char.toLower)) ||
    hasSub banned.data (lowerTitle m) ||
    hasSub banned.data (lowerDesc m))

/-- Rule 4 issues: one error listing all found denylist terms. -/
def bannedIssues (m : ImageMetadata) : List ValidationIssue :=
  if (foundBanned m).length > 0 then
    [⟨IssueType.error, bannedMsg (foundBanned m), "keywords"⟩]
  else []

/-- Rule 4 penalty: `25 × foundBanned.length`. -/
def bannedPenalty (m : ImageMetadata) : ℚ :=
  if (foundBanned m).length > 0 then 25 * ((foundBanned m).length : ℚ)
  else 0

/-- Rule 4 recommendation. -/
def bannedRecs (m : ImageMetadata) : List String :=
  if (foundBanned m).length > 0 then
    ["Remove all instances of: " ++
      String.intercalate ", " (foundBanned m) ++ "."]
  else []

/-- Rule 5 issues: `isAI` is false. -/
def aiIssues (m : ImageMetadata) : List ValidationIssue :=
  if !m.isAI then [aiIssue] else []

/-- Rule 5 penalty. -/
def aiPenalty (m : ImageMetadata) : ℚ :=
  if !m.isAI then 10 else 0

/-- Rule 6 issues: `author` does not contain the placeholder token (info, no
penalty). -/
def authorIssues (m : ImageMetadata) : List ValidationIssue :=
  if !hasSub placeholderToken m.author.data then [authorIssue] else []

/-- Sum of every score penalty applied by `validateMetadata` (the
degenerate-keywords info rule and the author info rule contribute no
penalty). -/
def totalPenalty (m : ImageMetadata) : ℚ :=
  titleLenPenalty m + titleWordsPenalty m + descPenalty m +
    kwCountPenalty m + dupPenalty m + bannedPenalty m + aiPenalty m

/-- The validator service's `validateMetadata`. Issues and recommendations are
accumulated in source order; the final score is
`Math.max(0, Math.min(100, Math.round(100 − Σ penalties)))`. -/
def validateMetadata (m : ImageMetadata) : ValidationResult :=
  { score := max 0 (min 100 (jsRound (100 - totalPenalty m)))
    issues :=
      titleLenIssues m ++ titleWordsIssues m ++ descIssues m ++
        kwCountIssues m ++ dupIssues m ++ shortKwIssues m ++
        bannedIssues m ++ aiIssues m ++ authorIssues m
    recommendations :=
      kwCountRecs m ++ dupRecs m ++ shortKwRecs m ++ bannedRecs m }

/-- A metadata record with 29 keywords (keyword-count shortfall 1). -/
def mKw29 : ImageMetadata :=
  { title := "beautiful sunset over the calm sea"
    description := "a wide calm sea with soft light and gentle waves at dawn"
    keywords := ["kw01", "kw02", "kw03", "kw04", "kw05", "kw06", "kw07",
      "kw08", "kw09", "kw10", "kw11", "kw12", "kw13", "kw14", "kw15",
      "kw16", "kw17", "kw18", "kw19", "kw20", "kw21", "kw22", "kw23",
      "kw24", "kw25", "kw26", "kw27", "kw28", "kw29"]
    isAI := true
    author := "studio" }

/-- The spec's denylist example: title mentioning a phone brand. -/
def mIphone : ImageMetadata :=
  { title := "Amazing iPhone photo"
    description := "a photo"
    keywords := ["sea"]
    isAI := true
    author := "studio" }

/-- The spec's duplicate-keywords example. -/
def mDup : ImageMetadata :=
  { title := "t"
    description := "d"
    keywords := ["cat", "Cat ", "dog"]
    isAI := true
    author := "studio" }

/-- Four one-character keywords (degenerate-keywords rule fires). -/
def mShortKw : ImageMetadata :=
  { title := "t"
    description := "d"
    keywords := ["a", "b", "c", "d"]
    isAI := true
    author := "studio" }

/-- Four keywords of raw length 3 whose trimmed length is 1: the claimed
trimmed-length reading fires, the code's raw-length check does not. -/
def mC9bad : ImageMetadata :=
  { title := "t"
    description := "d"
    keywords := [" a ", " b ", " c ", " d "]
    isAI := true
    author := "studio" }

/-- Title of raw length 72 whose trimmed length is 4: the code emits the
too-long error, while a trimmed-length reading predicts the too-short
warning. -/
def mC7bad : ImageMetadata :=
  { title := "tiny                                                                    "
    description := "d"
    keywords := ["sea"]
    isAI := true
    author := "studio" }

/-- A single 72-character word as title: the too-long error and the
low-word-count warning fire together. -/
def mC7ex : ImageMetadata :=
  { title := "aaaaaaaaaaaaaaaaaaaaaaaaaaaaaaaaaaaaaaaaaaaaaaaaaaaaaaaaaaaaaaaaaaaaaaaa"
    description := "d"
    keywords := ["sea"]
    isAI := true
    author := "studio" }

/-- A metadata record with an empty title. -/
def mEmptyTitle : ImageMetadata :=
  { title := ""
    description := "d"
    keywords := ["sea"]
    isAI := true
    author := "studio" }

/-- Meets every hypothesis of claim C2 as stated, but has 30 two-character
keywords, so the degenerate-keywords info issue still fires. -/
def mC2bad : ImageMetadata :=
  { title := "beautiful sunset over the calm sea"
    description := "a wide calm sea with soft light and gentle waves at dawn"
    keywords := ["aa", "ab", "ac", "ad", "ae", "af", "ag", "ah", "ai", "aj",
      "ak", "al", "am", "an", "ao", "ap", "aq", "ar", "as", "at", "au",
      "av", "aw", "ax", "ay", "az", "ba", "bb", "bc", "bd"]
    isAI := true
    author := "\x7b\x7bauthor\x7d\x7d" }

/-- A fully compliant metadata record: every rule passes. -/
def mC2good : ImageMetadata :=
  { title := "beautiful sunset over the calm sea"
    description := "a wide calm sea with soft light and gentle waves at dawn"
    keywords := ["kw01", "kw02", "kw03", "kw04", "kw05", "kw06", "kw07",
      "kw08", "kw09", "kw10", "kw11", "kw12", "kw13", "kw14", "kw15",
      "kw16", "kw17", "kw18", "kw19", "kw20", "kw21", "kw22", "kw23",
      "kw24", "kw25", "kw26", "kw27", "kw28", "kw29", "kw30"]
    isAI := true
    author := "\x7b\x7bauthor\x7d\x7d photos" }

/-- The spec's end-to-end scenario: an 80-character 8-word title, a 12-word
description, 25 unique non-denylisted keywords, `isAI = false`, author
without the placeholder. -/
def c8input : ImageMetadata :=
  { title := "aaaaaaaaaa bbbbbbbbbb cccccccccc dddddddddd eeeeeeeeee ffffffffff gggggggggg zzz"
    description := "aa bb cc dd ee ff gg hh ii jj kk ll"
    keywords := ["kw01", "kw02", "kw03", "kw04", "kw05", "kw06", "kw07",
      "kw08", "kw09", "kw10", "kw11", "kw12", "kw13", "kw14", "kw15",
      "kw16", "kw17", "kw18", "kw19", "kw20", "kw21", "kw22", "kw23",
      "kw24", "kw25"]
    isAI := false
    author := "Studio" }

/-- An issue of severity `error` on the `title` field (only the title
too-long rule emits one). -/
def isErrTitle (i : ValidationIssue) : Bool :=
  i.type == IssueType.error && i.field == "title"

/-- An issue of severity `warning` on the `keywords` field (only the
duplicate-keywords rule emits one). -/
def isWarnKw (i : ValidationIssue) : Bool :=
  i.type == IssueType.warning && i.field == "keywords"

/-- An issue of severity `info` on the `keywords` field (only the
degenerate-keywords rule emits one). -/
def isInfoKw (i : ValidationIssue) : Bool :=
  i.type == IssueType.info && i.field == "keywords"

/-- Claim C2 exactly as stated: its hypotheses do not constrain the number
of very short keywords. -/
def claimC2Prop : Prop :=
  ∀ m : ImageMetadata,
    20 ≤ m.title.length ∧ m.title.length ≤ 70 ∧ 5 ≤ titleWordCount m ∧
      10 ≤ descWordCount m ∧ 30 ≤ m.keywords.length ∧
      m.keywords.length ≤ 50 ∧ uniqueKwCount m = m.keywords.length ∧
      foundBanned m = [] ∧ m.isAI = true ∧
      hasSub placeholderToken m.author.data = true →
    (validateMetadata m).score = 100 ∧ (validateMetadata m).issues = []

/-- Claim C7 exactly as stated: title-length checks read on the trimmed
title, and some input fires the too-long error, the too-short warning and
the low-word-count warning together. -/
def claimC7Prop : Prop :=
  (∀ m : ImageMetadata,
    (70 < (jsTrim m.title.data).length →
      (validateMetadata m).issues.countP isErrTitle = 1 ∧
      titleLenPenalty m = 15) ∧
    ((jsTrim m.title.data).length < 20 →
      (validateMetadata m).issues.count tooShortIssue = 1 ∧
      titleLenPenalty m = 5) ∧
    (titleWordCount m < 5 →
      (validateMetadata m).issues.count lowWordsIssue = 1 ∧
      titleWordsPenalty m = 5)) ∧
  ∃ m : ImageMetadata,
    0 < (validateMetadata m).issues.countP isErrTitle ∧
    0 < (validateMetadata m).issues.count tooShortIssue ∧
    0 < (validateMetadata m).issues.count lowWordsIssue

/-- Claim C9 exactly as stated: the degenerate-keyword count reads the
trimmed keyword length. -/
def claimC9Prop : Prop :=
  ∀ m : ImageMetadata,
    3 < (m.keywords.filter (fun k => (jsTrim k.data).length < 3)).length →
    (validateMetadata m).issues.countP isInfoKw = 1

/-! Helper lemmas: distinguishing the issues of different rules, and
decomposing counts over the issue list that `validateMetadata` builds. -/

theorem uniqueKwCount_le (m : ImageMetadata) :
    uniqueKwCount m ≤ m.keywords.length := by
  have h := (List.dedup_sublist (m.keywords.map normKw)).length_le
  simpa [uniqueKwCount] using h

theorem ne_of_data_head {a b : String} (h : a.data.head? ≠ b.data.head?) :
    a ≠ b :=
  fun e => h (congrArg (fun s => s.data.head?) e)

theorem issue_ne_of_type {x y : ValidationIssue} (h : x.type ≠ y.type) :
    x ≠ y :=
  fun e => h (congrArg ValidationIssue.type e)

theorem issue_ne_of_field {x y : ValidationIssue} (h : x.field ≠ y.field) :
    x ≠ y :=
  fun e => h (congrArg ValidationIssue.field e)

theorem issue_ne_of_msg {x y : ValidationIssue} (h : x.message ≠ y.message) :
    x ≠ y :=
  fun e => h (congrArg ValidationIssue.message e)

theorem kwFewMsg_head (n : Nat) : (kwFewMsg n).data.head? = some 'F' := rfl

theorem kwManyMsg_head (n : Nat) : (kwManyMsg n).data.head? = some 'F' := rfl

theorem bannedMsg_head (l : List String) :
    (bannedMsg l).data.head? = some 'P' := rfl

theorem kwFewMsg_length (n : Nat) :
    (kwFewMsg n).length = (toString n).length + 65 := by
  show (("Found only " ++ toString n) ++
    " keywords. Minimum 30 required for optimal visibility.").length = _
  rw [String.length_append, String.length_append]
  have h1 : ("Found only " : String).length = 11 := rfl
  have h2 :
      (" keywords. Minimum 30 required for optimal visibility." :
        String).length = 54 := rfl
  omega

theorem kwManyMsg_length (n : Nat) :
    (kwManyMsg n).length = (toString n).length + 50 := by
  show (("Found " ++ toString n) ++
    " keywords. Max 50 allowed on most platforms.").length = _
  rw [String.length_append, String.length_append]
  have h1 : ("Found " : String).length = 6 := rfl
  have h2 :
      (" keywords. Max 50 allowed on most platforms." : String).length =
        44 := rfl
  omega

theorem kwFewMsg_ne_kwManyMsg (n : Nat) : kwFewMsg n ≠ kwManyMsg n := by
  intro e
  have h := congrArg String.length e
  rw [kwFewMsg_length, kwManyMsg_length] at h
  omega

theorem err_ne_warn : IssueType.error ≠ IssueType.warning := by decide

theorem err_ne_info : IssueType.error ≠ IssueType.info := by decide

theorem warn_ne_err : IssueType.warning ≠ IssueType.error := by decide

theorem warn_ne_info : IssueType.warning ≠ IssueType.info := by decide

theorem info_ne_err : IssueType.info ≠ IssueType.error := by decide

theorem info_ne_warn : IssueType.info ≠ IssueType.warning := by decide

theorem kwF_ne_titleF : ("keywords" : String) ≠ "title" := by decide

theorem titleF_ne_kwF : ("title" : String) ≠ "keywords" := by decide

theorem kwF_ne_descF : ("keywords" : String) ≠ "description" := by decide

theorem kwF_ne_aiF : ("keywords" : String) ≠ "isAI" := by decide

theorem titleF_ne_descF : ("title" : String) ≠ "description" := by decide

theorem titleF_ne_aiF : ("title" : String) ≠ "isAI" := by decide

theorem tooShort_ne_lowWords : tooShortIssue ≠ lowWordsIssue := by decide

theorem lowWords_ne_tooShort : lowWordsIssue ≠ tooShortIssue := by decide

theorem count_singleton_ne {x y : ValidationIssue} (h : x ≠ y) :
    ([y] : List ValidationIssue).count x = 0 := by
  simp [List.count_cons, h]

theorem count_singleton_self (y : ValidationIssue) :
    ([y] : List ValidationIssue).count y = 1 := by simp

theorem countP_singleton (p : ValidationIssue → Bool) (y : ValidationIssue) :
    ([y] : List ValidationIssue).countP p = if p y then 1 else 0 := by
  simp [List.countP_cons]

theorem count_validate (m : ImageMetadata) (x : ValidationIssue) :
    (validateMetadata m).issues.count x =
      (titleLenIssues m).count x + (titleWordsIssues m).count x +
        (descIssues m).count x + (kwCountIssues m).count x +
        (dupIssues m).count x + (shortKwIssues m).count x +
        (bannedIssues m).count x + (aiIssues m).count x +
        (authorIssues m).count x := by
  show (titleLenIssues m ++ titleWordsIssues m ++ descIssues m ++
      kwCountIssues m ++ dupIssues m ++ shortKwIssues m ++ bannedIssues m ++
      aiIssues m ++ authorIssues m).count x = _
  simp only [List.count_append]

theorem countP_validate (m : ImageMetadata) (p : ValidationIssue → Bool) :
    (validateMetadata m).issues.countP p =
      (titleLenIssues m).countP p + (titleWordsIssues m).countP p +
        (descIssues m).countP p + (kwCountIssues m).countP p +
        (dupIssues m).countP p + (shortKwIssues m).countP p +
        (bannedIssues m).countP p + (aiIssues m).countP p +
        (authorIssues m).countP p := by
  show (titleLenIssues m ++ titleWordsIssues m ++ descIssues m ++
      kwCountIssues m ++ dupIssues m ++ shortKwIssues m ++ bannedIssues m ++
      aiIssues m ++ authorIssues m).countP p = _
  simp only [List.countP_append]

theorem count_titleLenIssues_zero (m : ImageMetadata) {x : ValidationIssue}
    (hx : x.field ≠ "title") : (titleLenIssues m).count x = 0 := by
  unfold titleLenIssues
  split_ifs
  · exact count_singleton_ne (issue_ne_of_field hx)
  · exact count_singleton_ne (issue_ne_of_field hx)
  · rfl

theorem count_titleWordsIssues_zero (m : ImageMetadata)
    {x : ValidationIssue} (hx : x ≠ lowWordsIssue) :
    (titleWordsIssues m).count x = 0 := by
  unfold titleWordsIssues
  split_ifs
  · exact count_singleton_ne hx
  · rfl

theorem count_descIssues_zero (m : ImageMetadata) {x : ValidationIssue}
    (hx : x ≠ sparseDescIssue) : (descIssues m).count x = 0 := by
  unfold descIssues
  split_ifs
  · exact count_singleton_ne hx
  · rfl

theorem count_kwCountIssues_zero (m : ImageMetadata) {x : ValidationIssue}
    (h1 : x ≠ ⟨IssueType.error, kwFewMsg m.keywords.length, "keywords"⟩)
    (h2 : x ≠ ⟨IssueType.error, kwManyMsg m.keywords.length, "keywords"⟩) :
    (kwCountIssues m).count x = 0 := by
  unfold kwCountIssues
  split_ifs
  · exact count_singleton_ne h1
  · exact count_singleton_ne h2
  · rfl

theorem count_dupIssues_zero (m : ImageMetadata) {x : ValidationIssue}
    (hx : x ≠ ⟨IssueType.warning,
      dupMsg (m.keywords.length - uniqueKwCount m), "keywords"⟩) :
    (dupIssues m).count x = 0 := by
  unfold dupIssues
  split_ifs
  · exact count_singleton_ne hx
  · rfl

theorem count_shortKwIssues_zero (m : ImageMetadata) {x : ValidationIssue}
    (hx : x.type ≠ IssueType.info) : (shortKwIssues m).count x = 0 := by
  unfold shortKwIssues
  split_ifs
  · exact count_singleton_ne (issue_ne_of_type hx)
  · rfl

theorem count_bannedIssues_zero (m : ImageMetadata) {x : ValidationIssue}
    (hx : x ≠ ⟨IssueType.error, bannedMsg (foundBanned m), "keywords"⟩) :
    (bannedIssues m).count x = 0 := by
  unfold bannedIssues
  split_ifs
  · exact count_singleton_ne hx
  · rfl

theorem count_aiIssues_zero (m : ImageMetadata) {x : ValidationIssue}
    (hx : x ≠ aiIssue) : (aiIssues m).count x = 0 := by
  unfold aiIssues
  split_ifs
  · exact count_singleton_ne hx
  · rfl

theorem count_authorIssues_zero (m : ImageMetadata) {x : ValidationIssue}
    (hx : x ≠ authorIssue) : (authorIssues m).count x = 0 := by
  unfold authorIssues
  split_ifs
  · exact count_singleton_ne hx
  · rfl

theorem count_kwFew (m : ImageMetadata) :
    (validateMetadata m).issues.count
        ⟨IssueType.error, kwFewMsg m.keywords.length, "keywords"⟩ =
      if m.keywords.length < 30 then 1 else 0 := by
  rw [count_validate]
  rw [count_titleLenIssues_zero m kwF_ne_titleF,
    count_titleWordsIssues_zero m (issue_ne_of_type err_ne_warn),
    count_descIssues_zero m (issue_ne_of_type err_ne_warn),
    count_dupIssues_zero m (issue_ne_of_type err_ne_warn),
    count_shortKwIssues_zero m err_ne_info,
    count_bannedIssues_zero m (issue_ne_of_msg (ne_of_data_head (by
      rw [kwFewMsg_head, bannedMsg_head]; decide))),
    count_aiIssues_zero m (issue_ne_of_type err_ne_warn),
    count_authorIssues_zero m (issue_ne_of_type err_ne_info)]
  unfold kwCountIssues
  split_ifs
  · rw [count_singleton_self]
  · rw [count_singleton_ne (issue_ne_of_msg (kwFewMsg_ne_kwManyMsg _))]
  · rfl

theorem count_titleLenIssues_zero' (m : ImageMetadata) {x : ValidationIssue}
    (h1 : x ≠ ⟨IssueType.error, tooLongMsg m.title.length, "title"⟩)
    (h2 : x ≠ tooShortIssue) : (titleLenIssues m).count x = 0 := by
  unfold titleLenIssues
  split_ifs
  · exact count_singleton_ne h1
  · exact count_singleton_ne h2
  · rfl

theorem count_kwMany (m : ImageMetadata) :
    (validateMetadata m).issues.count
        ⟨IssueType.error, kwManyMsg m.keywords.length, "keywords"⟩ =
      if m.keywords.length < 30 then 0
      else if m.keywords.length > 50 then 1 else 0 := by
  rw [count_validate]
  rw [count_titleLenIssues_zero m kwF_ne_titleF,
    count_titleWordsIssues_zero m (issue_ne_of_type err_ne_warn),
    count_descIssues_zero m (issue_ne_of_type err_ne_warn),
    count_dupIssues_zero m (issue_ne_of_type err_ne_warn),
    count_shortKwIssues_zero m err_ne_info,
    count_bannedIssues_zero m (issue_ne_of_msg (ne_of_data_head (by
      rw [kwManyMsg_head, bannedMsg_head]; decide))),
    count_aiIssues_zero m (issue_ne_of_type err_ne_warn),
    count_authorIssues_zero m (issue_ne_of_type err_ne_info)]
  unfold kwCountIssues
  split_ifs
  · rw [count_singleton_ne (issue_ne_of_msg
      (Ne.symm (kwFewMsg_ne_kwManyMsg _)))]
  · rw [count_singleton_self]
  · rfl

theorem count_dup (m : ImageMetadata) :
    (validateMetadata m).issues.count
        ⟨IssueType.warning, dupMsg (m.keywords.length - uniqueKwCount m),
          "keywords"⟩ =
      if uniqueKwCount m ≠ m.keywords.length then 1 else 0 := by
  rw [count_validate]
  rw [count_titleLenIssues_zero m kwF_ne_titleF,
    count_titleWordsIssues_zero m (issue_ne_of_field kwF_ne_titleF),
    count_descIssues_zero m (issue_ne_of_field kwF_ne_descF),
    count_kwCountIssues_zero m (issue_ne_of_type warn_ne_err)
      (issue_ne_of_type warn_ne_err),
    count_shortKwIssues_zero m warn_ne_info,
    count_bannedIssues_zero m (issue_ne_of_type warn_ne_err),
    count_aiIssues_zero m (issue_ne_of_field kwF_ne_aiF),
    count_authorIssues_zero m (issue_ne_of_type warn_ne_info)]
  unfold dupIssues
  split_ifs
  · rw [count_singleton_self]
  · rfl

theorem count_banned (m : ImageMetadata) :
    (validateMetadata m).issues.count
        ⟨IssueType.error, bannedMsg (foundBanned m), "keywords"⟩ =
      if (foundBanned m).length > 0 then 1 else 0 := by
  rw [count_validate]
  rw [count_titleLenIssues_zero m kwF_ne_titleF,
    count_titleWordsIssues_zero m (issue_ne_of_type err_ne_warn),
    count_descIssues_zero m (issue_ne_of_type err_ne_warn),
    count_kwCountIssues_zero m
      (issue_ne_of_msg (ne_of_data_head (by
        rw [bannedMsg_head, kwFewMsg_head]; decide)))
      (issue_ne_of_msg (ne_of_data_head (by
        rw [bannedMsg_head, kwManyMsg_head]; decide))),
    count_dupIssues_zero m (issue_ne_of_type err_ne_warn),
    count_shortKwIssues_zero m err_ne_info,
    count_aiIssues_zero m (issue_ne_of_type err_ne_warn),
    count_authorIssues_zero m (issue_ne_of_type err_ne_info)]
  unfold bannedIssues
  split_ifs
  · rw [count_singleton_self]
  · rfl

theorem count_tooShort (m : ImageMetadata) :
    (validateMetadata m).issues.count tooShortIssue =
      if m.title.length > 70 then 0
      else if m.title.length < 20 then 1 else 0 := by
  rw [count_validate]
  rw [count_titleWordsIssues_zero m tooShort_ne_lowWords,
    count_descIssues_zero m (issue_ne_of_field titleF_ne_descF),
    count_kwCountIssues_zero m (issue_ne_of_type warn_ne_err)
      (issue_ne_of_type warn_ne_err),
    count_dupIssues_zero m (issue_ne_of_field titleF_ne_kwF),
    count_shortKwIssues_zero m warn_ne_info,
    count_bannedIssues_zero m (issue_ne_of_type warn_ne_err),
    count_aiIssues_zero m (issue_ne_of_field titleF_ne_aiF),
    count_authorIssues_zero m (issue_ne_of_type warn_ne_info)]
  unfold titleLenIssues
  split_ifs
  · rw [count_singleton_ne (issue_ne_of_type warn_ne_err)]
  · rw [count_singleton_self]
  · rfl

theorem count_lowWords (m : ImageMetadata) :
    (validateMetadata m).issues.count lowWordsIssue =
      if titleWordCount m < 5 then 1 else 0 := by
  rw [count_validate]
  rw [count_titleLenIssues_zero' m (issue_ne_of_type warn_ne_err)
      lowWords_ne_tooShort,
    count_descIssues_zero m (issue_ne_of_field titleF_ne_descF),
    count_kwCountIssues_zero m (issue_ne_of_type warn_ne_err)
      (issue_ne_of_type warn_ne_err),
    count_dupIssues_zero m (issue_ne_of_field titleF_ne_kwF),
    count_shortKwIssues_zero m warn_ne_info,
    count_bannedIssues_zero m (issue_ne_of_type warn_ne_err),
    count_aiIssues_zero m (issue_ne_of_field titleF_ne_aiF),
    count_authorIssues_zero m (issue_ne_of_type warn_ne_info)]
  unfold titleWordsIssues
  split_ifs
  · rw [count_singleton_self]
  · rfl

theorem countP_errTitle (m : ImageMetadata) :
    (validateMetadata m).issues.countP isErrTitle =
      if m.title.length > 70 then 1 else 0 := by
  rw [countP_validate]
  have h1 : (titleLenIssues m).countP isErrTitle =
      if m.title.length > 70 then 1 else 0 := by
    unfold titleLenIssues; split_ifs <;> rfl
  have h2 : (titleWordsIssues m).countP isErrTitle = 0 := by
    unfold titleWordsIssues; split_ifs <;> rfl
  have h3 : (descIssues m).countP isErrTitle = 0 := by
    unfold descIssues; split_ifs <;> rfl
  have h4 : (kwCountIssues m).countP isErrTitle = 0 := by
    unfold kwCountIssues; split_ifs <;> rfl
  have h5 : (dupIssues m).countP isErrTitle = 0 := by
    unfold dupIssues; split_ifs <;> rfl
  have h6 : (shortKwIssues m).countP isErrTitle = 0 := by
    unfold shortKwIssues; split_ifs <;> rfl
  have h7 : (bannedIssues m).countP isErrTitle = 0 := by
    unfold bannedIssues; split_ifs <;> rfl
  have h8 : (aiIssues m).countP isErrTitle = 0 := by
    unfold aiIssues; split_ifs <;> rfl
  have h9 : (authorIssues m).countP isErrTitle = 0 := by
    unfold authorIssues; split_ifs <;> rfl
  rw [h1, h2, h3, h4, h5, h6, h7, h8, h9]
  split_ifs <;> rfl

theorem countP_warnKw (m : ImageMetadata) :
    (validateMetadata m).issues.countP isWarnKw =
      if uniqueKwCount m ≠ m.keywords.length then 1 else 0 := by
  rw [countP_validate]
  have h1 : (titleLenIssues m).countP isWarnKw = 0 := by
    unfold titleLenIssues; split_ifs <;> rfl
  have h2 : (titleWordsIssues m).countP isWarnKw = 0 := by
    unfold titleWordsIssues; split_ifs <;> rfl
  have h3 : (descIssues m).countP isWarnKw = 0 := by
    unfold descIssues; split_ifs <;> rfl
  have h4 : (kwCountIssues m).countP isWarnKw = 0 := by
    unfold kwCountIssues; split_ifs <;> rfl
  have h5 : (dupIssues m).countP isWarnKw =
      if uniqueKwCount m ≠ m.keywords.length then 1 else 0 := by
    unfold dupIssues; split_ifs <;> rfl
  have h6 : (shortKwIssues m).countP isWarnKw = 0 := by
    unfold shortKwIssues; split_ifs <;> rfl
  have h7 : (bannedIssues m).countP isWarnKw = 0 := by
    unfold bannedIssues; split_ifs <;> rfl
  have h8 : (aiIssues m).countP isWarnKw = 0 := by
    unfold aiIssues; split_ifs <;> rfl
  have h9 : (authorIssues m).countP isWarnKw = 0 := by
    unfold authorIssues; split_ifs <;> rfl
  rw [h1, h2, h3, h4, h5, h6, h7, h8, h9]
  split_ifs <;> rfl

theorem countP_infoKw (m : ImageMetadata) :
    (validateMetadata m).issues.countP isInfoKw =
      if (tooShortKeywords m).length > 3 then 1 else 0 := by
  rw [countP_validate]
  have h1 : (titleLenIssues m).countP isInfoKw = 0 := by
    unfold titleLenIssues; split_ifs <;> rfl
  have h2 : (titleWordsIssues m).countP isInfoKw = 0 := by
    unfold titleWordsIssues; split_ifs <;> rfl
  have h3 : (descIssues m).countP isInfoKw = 0 := by
    unfold descIssues; split_ifs <;> rfl
  have h4 : (kwCountIssues m).countP isInfoKw = 0 := by
    unfold kwCountIssues; split_ifs <;> rfl
  have h5 : (dupIssues m).countP isInfoKw = 0 := by
    unfold dupIssues; split_ifs <;> rfl
  have h6 : (shortKwIssues m).countP isInfoKw =
      if (tooShortKeywords m).length > 3 then 1 else 0 := by
    unfold shortKwIssues; split_ifs <;> rfl
  have h7 : (bannedIssues m).countP isInfoKw = 0 := by
    unfold bannedIssues; split_ifs <;> rfl
  have h8 : (aiIssues m).countP isInfoKw = 0 := by
    unfold aiIssues; split_ifs <;> rfl
  have h9 : (authorIssues m).countP isInfoKw = 0 := by
    unfold authorIssues; split_ifs <;> rfl
  rw [h1, h2, h3, h4, h5, h6, h7, h8, h9]
  split_ifs <;> rfl

theorem recs_decomp (m : ImageMetadata) :
    (validateMetadata m).recommendations =
      kwCountRecs m ++ dupRecs m ++ shortKwRecs m ++ bannedRecs m := rfl

/-! The claims. -/

/-- C1: for every `ImageMetadata`, `validateMetadata` returns an integer
score (the `score` field has type `ℤ`) with `0 ≤ score ≤ 100`, no matter
how negative the accumulated penalty sum `100 - totalPenalty m` becomes. -/
theorem claim_c1_score_clamped (m : ImageMetadata) :
    0 ≤ (validateMetadata m).score ∧ (validateMetadata m).score ≤ 100 := by
  constructor
  · show 0 ≤ max 0 (min 100 (jsRound (100 - totalPenalty m)))
    exact le_max_left 0 _
  · show max 0 (min 100 (jsRound (100 - totalPenalty m))) ≤ 100
    exact max_le (by norm_num) (min_le_left _ _)

/-- C3: `validateMetadata` is a pure function of its input: two invocations
on the same metadata yield identical score, issue sequence and
recommendation sequence (the embedding has no hidden state, timestamps or
randomness, mirroring the source, which reads nothing but its argument). -/
theorem claim_c3_deterministic (m : ImageMetadata)
    (r₁ r₂ : ValidationResult) (h₁ : r₁ = validateMetadata m)
    (h₂ : r₂ = validateMetadata m) :
    r₁.score = r₂.score ∧ r₁.issues = r₂.issues ∧
      r₁.recommendations = r₂.recommendations := by
  subst h₁
  subst h₂
  exact ⟨rfl, rfl, rfl⟩

/-- Witness for C3 at a concrete input. -/
theorem claim_c3_witness :
    (validateMetadata mDup).score = (validateMetadata mDup).score ∧
      (validateMetadata mDup).issues = (validateMetadata mDup).issues ∧
      (validateMetadata mDup).recommendations =
        (validateMetadata mDup).recommendations :=
  claim_c3_deterministic mDup (validateMetadata mDup)
    (validateMetadata mDup) rfl rfl

/-- C4: with `K` the keyword count, `K < 30` emits exactly one
keyword-count error (message citing `K`, with the shortfall `30 − K` cited
by the added recommendation) and penalty `(30 − K) × 1.5`; `K > 50` emits
exactly one keyword-count error with penalty `(K − 50) × 2` and a removal
recommendation; `30 ≤ K ≤ 50` emits neither and no penalty. -/
theorem claim_c4_keyword_count (m : ImageMetadata) :
    (m.keywords.length < 30 →
      (validateMetadata m).issues.count
          ⟨IssueType.error, kwFewMsg m.keywords.length, "keywords"⟩ = 1 ∧
      kwCountPenalty m = ((30 - m.keywords.length : ℕ) : ℚ) * (3 / 2) ∧
      ("Add " ++ toString (30 - m.keywords.length) ++
          " more keywords to reach the minimum of 30.") ∈
        (validateMetadata m).recommendations) ∧
    (m.keywords.length > 50 →
      (validateMetadata m).issues.count
          ⟨IssueType.error, kwManyMsg m.keywords.length, "keywords"⟩ = 1 ∧
      kwCountPenalty m = ((m.keywords.length - 50 : ℕ) : ℚ) * 2 ∧
      ("Remove " ++ toString (m.keywords.length - 50) ++
          " least relevant keywords.") ∈
        (validateMetadata m).recommendations) ∧
    (30 ≤ m.keywords.length → m.keywords.length ≤ 50 →
      (validateMetadata m).issues.count
          ⟨IssueType.error, kwFewMsg m.keywords.length, "keywords"⟩ = 0 ∧
      (validateMetadata m).issues.count
          ⟨IssueType.error, kwManyMsg m.keywords.length, "keywords"⟩ = 0 ∧
      kwCountPenalty m = 0) := by
  refine ⟨fun h => ⟨?_, ?_, ?_⟩, fun h => ⟨?_, ?_, ?_⟩,
    fun h1 h2 => ⟨?_, ?_, ?_⟩⟩
  · rw [count_kwFew, if_pos h]
  · rw [kwCountPenalty, if_pos h]
  · rw [recs_decomp]
    refine List.mem_append_left _ (List.mem_append_left _
      (List.mem_append_left _ ?_))
    rw [kwCountRecs, if_pos h]
    exact List.mem_cons_self _ _
  · rw [count_kwMany, if_neg (by omega), if_pos h]
  · rw [kwCountPenalty, if_neg (by omega), if_pos h]
  · rw [recs_decomp]
    refine List.mem_append_left _ (List.mem_append_left _
      (List.mem_append_left _ ?_))
    rw [kwCountRecs, if_neg (by omega), if_pos h]
    exact List.mem_cons_self _ _
  · rw [count_kwFew, if_neg (by omega)]
  · rw [count_kwMany, if_neg (by omega), if_neg (by omega)]
  · rw [kwCountPenalty, if_neg (by omega), if_neg (by omega)]

/-- Witness for C4 at 29 keywords (shortfall 1). -/
theorem claim_c4_witness :
    mKw29.keywords.length < 30 ∧
      (validateMetadata mKw29).issues.count
        ⟨IssueType.error, kwFewMsg mKw29.keywords.length, "keywords"⟩ = 1 :=
  ⟨by decide, ((claim_c4_keyword_count mKw29).1 (by decide)).1⟩

/-- C5: a denylist term is found exactly when it is a substring of the
lower-cased title, the lower-cased description, or some lower-cased
keyword; the found terms are pairwise distinct; when some term is found the
validator emits exactly one compliance error listing all found terms, a
penalty of `25 ×` the number of found terms, and one removal
recommendation; otherwise no such error and no penalty. -/
theorem claim_c5_denylist (m : ImageMetadata) :
    (∀ b : String, b ∈ foundBanned m ↔ b ∈ BANNED_KEYWORDS ∧
      (hasSub b.data (lowerTitle m) = true ∨
        hasSub b.data (lowerDesc m) = true ∨
        ∃ k ∈ m.keywords,
          hasSub b.data (k.data.map Char.toLower) = true)) ∧
    (foundBanned m).Nodup ∧
    (foundBanned m ≠ [] →
      (validateMetadata m).issues.count
          ⟨IssueType.error, bannedMsg (foundBanned m), "keywords"⟩ = 1 ∧
      bannedPenalty m = 25 * ((foundBanned m).length : ℚ) ∧
      ("Remove all instances of: " ++
          String.intercalate ", " (foundBanned m) ++ ".") ∈
        (validateMetadata m).recommendations) ∧
    (foundBanned m = [] →
      (validateMetadata m).issues.count
          ⟨IssueType.error, bannedMsg (foundBanned m), "keywords"⟩ = 0 ∧
      bannedPenalty m = 0) := by
  refine ⟨?_, ?_, fun h => ⟨?_, ?_, ?_⟩, fun h => ⟨?_, ?_⟩⟩
  · intro b
    rw [foundBanned, List.mem_filter]
    simp only [Bool.or_eq_true, List.any_eq_true]
    constructor
    · rintro ⟨hb, (hk | ht) | hd⟩
      · exact ⟨hb, Or.inr (Or.inr hk)⟩
      · exact ⟨hb, Or.inl ht⟩
      · exact ⟨hb, Or.inr (Or.inl hd)⟩
    · rintro ⟨hb, ht | hd | hk⟩
      · exact ⟨hb, Or.inl (Or.inr ht)⟩
      · exact ⟨hb, Or.inr hd⟩
      · exact ⟨hb, Or.inl (Or.inl hk)⟩
  · exact List.Nodup.filter _ (by decide)
  · have hl : (foundBanned m).length > 0 := List.length_pos.mpr h
    rw [count_banned, if_pos hl]
  · have hl : (foundBanned m).length > 0 := List.length_pos.mpr h
    rw [bannedPenalty, if_pos hl]
  · have hl : (foundBanned m).length > 0 := List.length_pos.mpr h
    rw [recs_decomp]
    refine List.mem_append_right _ ?_
    rw [bannedRecs, if_pos hl]
    exact List.mem_cons_self _ _
  · rw [count_banned, h]
    rfl
  · rw [bannedPenalty, h]
    rfl

/-- Witness for C5 at the spec's example title `"Amazing iPhone photo"`. -/
theorem claim_c5_witness :
    foundBanned mIphone ≠ [] ∧
      (validateMetadata mIphone).issues.count
        ⟨IssueType.error, bannedMsg (foundBanned mIphone), "keywords"⟩ = 1 :=
  ⟨by decide, ((claim_c5_denylist mIphone).2.2.1 (by decide)).1⟩

/-- C6: with `D = raw keyword count − size of the set of lower-cased,
trimmed keywords`, `D > 0` emits exactly one duplicate-keywords warning
citing `D`, penalty `D × 3`, and a deduplication recommendation; `D = 0`
emits no duplicate-keywords issue and no penalty. -/
theorem claim_c6_duplicates (m : ImageMetadata) :
    uniqueKwCount m ≤ m.keywords.length ∧
    (0 < m.keywords.length - uniqueKwCount m →
      (validateMetadata m).issues.count
          ⟨IssueType.warning,
            dupMsg (m.keywords.length - uniqueKwCount m), "keywords"⟩ = 1 ∧
      dupPenalty m = ((m.keywords.length - uniqueKwCount m : ℕ) : ℚ) * 3 ∧
      "Remove duplicate keywords to save space for unique terms." ∈
        (validateMetadata m).recommendations) ∧
    (m.keywords.length - uniqueKwCount m = 0 →
      (validateMetadata m).issues.countP isWarnKw = 0 ∧ dupPenalty m = 0) := by
  have hle := uniqueKwCount_le m
  refine ⟨hle, fun h => ⟨?_, ?_, ?_⟩, fun h => ⟨?_, ?_⟩⟩
  · rw [count_dup, if_pos (by omega)]
  · rw [dupPenalty, if_pos (by omega)]
  · rw [recs_decomp]
    refine List.mem_append_left _ (List.mem_append_left _
      (List.mem_append_right _ ?_))
    rw [dupRecs, if_pos (by omega)]
    exact List.mem_cons_self _ _
  · rw [countP_warnKw, if_neg (by omega)]
  · rw [dupPenalty, if_neg (by omega)]

/-- Witness for C6 at the spec's example keywords
`["cat", "Cat ", "dog"]` (one duplicate). -/
theorem claim_c6_witness :
    0 < mDup.keywords.length - uniqueKwCount mDup ∧
      (validateMetadata mDup).issues.count
        ⟨IssueType.warning,
          dupMsg (mDup.keywords.length - uniqueKwCount mDup),
          "keywords"⟩ = 1 :=
  ⟨by decide, ((claim_c6_duplicates mDup).2.1 (by decide)).1⟩

/-- C7 as stated is false: the code reads the raw `title.length`, not the
trimmed length. For a title of raw length 72 whose trimmed length is 4, the
claim predicts the too-short warning with penalty 5, but the code takes the
too-long branch and applies penalty 15. -/
theorem claim_c7_counterexample : ¬ claimC7Prop := by
  intro h
  have h2 := ((h.1 mC7bad).2.1 (by decide)).2
  rw [titleLenPenalty, if_pos (by decide)] at h2
  norm_num at h2

/-- C7 amended: with `L` the raw (untrimmed) title length, `L > 70` emits
the title error with penalty 15, otherwise `L < 20` emits the too-short
warning with penalty 5 (the two are mutually exclusive, decided by an
if/else), while the low-word-count warning (penalty 5) is independent; the
too-long error and the low-word-count warning do fire together (e.g. on a
single 72-character word), but the too-long error and the too-short warning
never do, so all three can never fire at once. -/
theorem claim_c7_amended :
    (∀ m : ImageMetadata,
      (m.title.length > 70 →
        (validateMetadata m).issues.countP isErrTitle = 1 ∧
        titleLenPenalty m = 15) ∧
      (m.title.length < 20 →
        (validateMetadata m).issues.count tooShortIssue = 1 ∧
        titleLenPenalty m = 5) ∧
      (titleWordCount m < 5 →
        (validateMetadata m).issues.count lowWordsIssue = 1 ∧
        titleWordsPenalty m = 5) ∧
      ¬(0 < (validateMetadata m).issues.countP isErrTitle ∧
        0 < (validateMetadata m).issues.count tooShortIssue)) ∧
    (0 < (validateMetadata mC7ex).issues.countP isErrTitle ∧
      0 < (validateMetadata mC7ex).issues.count lowWordsIssue) := by
  constructor
  · intro m
    refine ⟨fun h => ⟨?_, ?_⟩, fun h => ⟨?_, ?_⟩, fun h => ⟨?_, ?_⟩, ?_⟩
    · rw [countP_errTitle, if_pos h]
    · rw [titleLenPenalty, if_pos h]
    · rw [count_tooShort, if_neg (by omega), if_pos h]
    · rw [titleLenPenalty, if_neg (by omega), if_pos h]
    · rw [count_lowWords, if_pos h]
    · rw [titleWordsPenalty, if_pos h]
    · rintro ⟨h1, h2⟩
      rw [countP_errTitle] at h1
      rw [count_tooShort] at h2
      by_cases h70 : m.title.length > 70
      · rw [if_pos h70] at h2
        omega
      · rw [if_neg h70] at h1
        omega
  · constructor
    · rw [countP_errTitle, if_pos (by decide)]
      omega
    · rw [count_lowWords, if_pos (by decide)]
      omega

/-- Witness for amended C7 at the 72-character one-word title. -/
theorem claim_c7_witness :
    mC7ex.title.length > 70 ∧
      (validateMetadata mC7ex).issues.countP isErrTitle = 1 :=
  ⟨by decide, ((claim_c7_amended.1 mC7ex).1 (by decide)).1⟩

/-- C9 as stated is false: the code filters on the raw keyword length
(`k.length < 3`), not the trimmed length. Four keywords `" a "` … `" d "`
have trimmed length 1 (so the claim predicts the info issue) but raw length
3, and the code emits nothing. -/
theorem claim_c9_counterexample : ¬ claimC9Prop := by
  intro h
  have h2 := h mC9bad (by decide)
  rw [countP_infoKw, if_neg (by decide)] at h2
  omega

/-- C9 amended: counting keywords of raw (untrimmed) length `< 3`, a count
above 3 emits exactly one info issue citing the count and the first such
keyword in input order, adds the replacement recommendation, and
contributes no score penalty (the score equals the clamped rounding of 100
minus the seven penalty-bearing rules only); a count of 3 or fewer emits no
such issue. -/
theorem claim_c9_amended (m : ImageMetadata) :
    ((tooShortKeywords m).length > 3 →
      (validateMetadata m).issues.countP isInfoKw = 1 ∧
      (⟨IssueType.info,
          shortKwMsg (tooShortKeywords m).length
            ((tooShortKeywords m).headD ""), "keywords"⟩ :
        ValidationIssue) ∈ (validateMetadata m).issues ∧
      "Replace short 2-letter keywords with more specific terms." ∈
        (validateMetadata m).recommendations ∧
      (validateMetadata m).score = max 0 (min 100 (jsRound (100 -
        (titleLenPenalty m + titleWordsPenalty m + descPenalty m +
          kwCountPenalty m + dupPenalty m + bannedPenalty m +
          aiPenalty m))))) ∧
    ((tooShortKeywords m).length ≤ 3 →
      (validateMetadata m).issues.countP isInfoKw = 0) := by
  constructor
  · intro h
    refine ⟨?_, ?_, ?_, rfl⟩
    · rw [countP_infoKw, if_pos h]
    · show _ ∈ titleLenIssues m ++ titleWordsIssues m ++ descIssues m ++
        kwCountIssues m ++ dupIssues m ++ shortKwIssues m ++
        bannedIssues m ++ aiIssues m ++ authorIssues m
      refine List.mem_append_left _ (List.mem_append_left _
        (List.mem_append_left _ (List.mem_append_right _ ?_)))
      rw [shortKwIssues, if_pos h]
      exact List.mem_cons_self _ _
    · rw [recs_decomp]
      refine List.mem_append_left _ (List.mem_append_right _ ?_)
      rw [shortKwRecs, if_pos h]
      exact List.mem_cons_self _ _
  · intro h
    rw [countP_infoKw, if_neg (by omega)]

/-- Witness for amended C9 at four one-character keywords. -/
theorem claim_c9_witness :
    (tooShortKeywords mShortKw).length > 3 ∧
      (validateMetadata mShortKw).issues.countP isInfoKw = 1 :=
  ⟨by decide, ((claim_c9_amended mShortKw).1 (by decide)).1⟩

/-- C10: an empty title has word count 1 (`"".split(/\s+/)` is `[""]`), so
both the too-short warning and the low-word-count warning fire, together
contributing penalty 10 on the title field, and the too-long error can
never fire at the same time as the too-short warning. -/
theorem claim_c10_empty_title :
    (∀ m : ImageMetadata, m.title = "" →
      titleWordCount m = 1 ∧
      (validateMetadata m).issues.count tooShortIssue = 1 ∧
      (validateMetadata m).issues.count lowWordsIssue = 1 ∧
      titleLenPenalty m + titleWordsPenalty m = 10 ∧
      (validateMetadata m).issues.countP isErrTitle = 0) ∧
    (∀ m : ImageMetadata,
      ¬(0 < (validateMetadata m).issues.countP isErrTitle ∧
        0 < (validateMetadata m).issues.count tooShortIssue)) := by
  constructor
  · intro m h
    have hw : titleWordCount m = 1 := by
      rw [titleWordCount, h]
      rfl
    have hlen : m.title.length = 0 := by
      rw [h]
      rfl
    refine ⟨hw, ?_, ?_, ?_, ?_⟩
    · rw [count_tooShort, if_neg (by omega), if_pos (by omega)]
    · rw [count_lowWords, if_pos (by omega)]
    · rw [titleLenPenalty, titleWordsPenalty, if_neg (by omega),
        if_pos (by omega), if_pos (by omega)]
      norm_num
    · rw [countP_errTitle, if_neg (by omega)]
  · intro m
    rintro ⟨h1, h2⟩
    rw [countP_errTitle] at h1
    rw [count_tooShort] at h2
    by_cases h70 : m.title.length > 70
    · rw [if_pos h70] at h2
      omega
    · rw [if_neg h70] at h1
      omega

/-- Witness for C10 at a concrete empty-title input. -/
theorem claim_c10_witness :
    mEmptyTitle.title = "" ∧
      (validateMetadata mEmptyTitle).issues.count tooShortIssue = 1 :=
  ⟨rfl, (claim_c10_empty_title.1 mEmptyTitle rfl).2.1⟩

/-- C2 as stated is false: its hypotheses do not exclude the
degenerate-keywords info rule. A record satisfying every stated hypothesis
but holding 30 distinct two-character keywords scores 100 yet reports one
info issue, so `issues` is not empty. -/
theorem claim_c2_counterexample : ¬ claimC2Prop := by
  intro h
  have h2 := (h mC2bad ⟨by decide, by decide, by decide, by decide,
    by decide, by decide, by decide, by decide, by decide, by decide⟩).2
  have h3 : (validateMetadata mC2bad).issues.countP isInfoKw = 1 := by
    rw [countP_infoKw, if_pos (by decide)]
  rw [h2] at h3
  simp [List.countP_nil] at h3

/-- C2 amended: under the stated hypotheses plus `at most 3 keywords
shorter than 3 characters`, the score is 100 and the issue list is
empty. -/
theorem claim_c2_amended (m : ImageMetadata)
    (h1 : 20 ≤ m.title.length) (h2 : m.title.length ≤ 70)
    (h3 : 5 ≤ titleWordCount m) (h4 : 10 ≤ descWordCount m)
    (h5 : 30 ≤ m.keywords.length) (h6 : m.keywords.length ≤ 50)
    (h7 : uniqueKwCount m = m.keywords.length)
    (h8 : foundBanned m = []) (h9 : m.isAI = true)
    (h10 : hasSub placeholderToken m.author.data = true)
    (h11 : (tooShortKeywords m).length ≤ 3) :
    (validateMetadata m).score = 100 ∧ (validateMetadata m).issues = [] := by
  have e1 : titleLenIssues m = [] := by
    rw [titleLenIssues, if_neg (by omega), if_neg (by omega)]
  have e2 : titleWordsIssues m = [] := by
    rw [titleWordsIssues, if_neg (by omega)]
  have e3 : descIssues m = [] := by
    rw [descIssues, if_neg (by omega)]
  have e4 : kwCountIssues m = [] := by
    rw [kwCountIssues, if_neg (by omega), if_neg (by omega)]
  have e5 : dupIssues m = [] := by
    rw [dupIssues, if_neg (by omega)]
  have e6 : shortKwIssues m = [] := by
    rw [shortKwIssues, if_neg (by omega)]
  have e7 : bannedIssues m = [] := by
    rw [bannedIssues, if_neg (by rw [h8]; decide)]
  have e8 : aiIssues m = [] := by
    rw [aiIssues, h9]
    rfl
  have e9 : authorIssues m = [] := by
    rw [authorIssues, h10]
    rfl
  have p1 : titleLenPenalty m = 0 := by
    rw [titleLenPenalty, if_neg (by omega), if_neg (by omega)]
  have p2 : titleWordsPenalty m = 0 := by
    rw [titleWordsPenalty, if_neg (by omega)]
  have p3 : descPenalty m = 0 := by
    rw [descPenalty, if_neg (by omega)]
  have p4 : kwCountPenalty m = 0 := by
    rw [kwCountPenalty, if_neg (by omega), if_neg (by omega)]
  have p5 : dupPenalty m = 0 := by
    rw [dupPenalty, if_neg (by omega)]
  have p6 : bannedPenalty m = 0 := by
    rw [bannedPenalty, if_neg (by rw [h8]; decide)]
  have p7 : aiPenalty m = 0 := by
    rw [aiPenalty, h9]
    rfl
  constructor
  · show max 0 (min 100 (jsRound (100 - totalPenalty m))) = 100
    rw [totalPenalty, p1, p2, p3, p4, p5, p6, p7]
    norm_num [jsRound]
  · show titleLenIssues m ++ titleWordsIssues m ++ descIssues m ++
      kwCountIssues m ++ dupIssues m ++ shortKwIssues m ++ bannedIssues m ++
      aiIssues m ++ authorIssues m = []
    rw [e1, e2, e3, e4, e5, e6, e7, e8, e9]
    rfl

/-- Witness for amended C2 at a fully compliant record. -/
theorem claim_c2_witness :
    (validateMetadata mC2good).score = 100 ∧
      (validateMetadata mC2good).issues = [] :=
  claim_c2_amended mC2good (by decide) (by decide) (by decide) (by decide)
    (by decide) (by decide) (by decide) (by decide) (by decide) (by decide)
    (by decide)

/-- C8: on the spec's scenario input (80-character 8-word title, 12-word
description, 25 unique clean keywords, `isAI = false`, author `"Studio"`)
the validator emits exactly the four issues title-too-long (error, 15),
keyword shortfall 5 (error, 7.5), AI disclosure (warning, 10) and author
placeholder (info, no penalty), and the score is the single rounding of
`100 − 15 − 7.5 − 10 = 67.5`, namely 68 (rounding is applied once to the
summed penalties, then clamped). -/
theorem claim_c8_scenario :
    validateMetadata c8input =
      { score := 68
        issues := [⟨IssueType.error, tooLongMsg 80, "title"⟩,
          ⟨IssueType.error, kwFewMsg 25, "keywords"⟩, aiIssue, authorIssue]
        recommendations :=
          ["Add 5 more keywords to reach the minimum of 30."] } := by
  have p1 : titleLenPenalty c8input = 15 := by
    rw [titleLenPenalty, if_pos (by decide)]
  have p2 : titleWordsPenalty c8input = 0 := by
    rw [titleWordsPenalty, if_neg (by decide)]
  have p3 : descPenalty c8input = 0 := by
    rw [descPenalty, if_neg (by decide)]
  have p4 : kwCountPenalty c8input = 15 / 2 := by
    rw [kwCountPenalty, if_pos (by decide)]
    have h5 : (30 - c8input.keywords.length : ℕ) = 5 := by decide
    rw [h5]
    norm_num
  have p5 : dupPenalty c8input = 0 := by
    rw [dupPenalty, if_neg (by decide)]
  have p6 : bannedPenalty c8input = 0 := by
    rw [bannedPenalty, if_neg (by decide)]
  have p7 : aiPenalty c8input = 10 := by
    rw [aiPenalty]
    rfl
  have hs : (validateMetadata c8input).score = 68 := by
    show max 0 (min 100 (jsRound (100 - totalPenalty c8input))) = 68
    rw [totalPenalty, p1, p2, p3, p4, p5, p6, p7]
    norm_num [jsRound]
  have hi : (validateMetadata c8input).issues =
      [⟨IssueType.error, tooLongMsg 80, "title"⟩,
        ⟨IssueType.error, kwFewMsg 25, "keywords"⟩, aiIssue, authorIssue] :=
    by decide
  have hr : (validateMetadata c8input).recommendations =
      ["Add 5 more keywords to reach the minimum of 30."] := by decide
  rw [show validateMetadata c8input =
    ⟨(validateMetadata c8input).score, (validateMetadata c8input).issues,
      (validateMetadata c8input).recommendations⟩ from rfl]
  rw [hs, hi, hr]
